import Mathlib

/-!
# Verification of `hotel/pms_systems.py` (Mews PMS integration)

Shallow embedding of the reconciliation logic in `src/hotel/pms_systems.py`:
`PMS_Mews.clean_webhook_payload`, `PMS_Mews.handle_webhook`,
`PMS_Mews.update_tomorrows_stays`, `PMS_Mews.stay_has_breakfast` and the
module-level `validate_phone_number`.

Modelling conventions:
* JSON values decoded by Python's `json.loads` are the inductive type `Json`.
  The standard-library parser is modelled by `json_loads` below (integers only:
  no float literals occur anywhere in this integration's data).
* Python `dict.get(k)` returning `None` when the key is absent is `Option Json`.
* Python exceptions are values of `PyErr`; a function that can raise returns
  `Except PyErr _`.  Every `try/except` of the source catches *all* the
  exceptions its body can raise, so a caught exception is an `Except.error`
  consumed by the caller.
* Django's `transaction.atomic` blocks roll back all writes of the block when
  an exception escapes it.  In the embedding the database is threaded as an
  explicit value, so an `Except.error` result simply never publishes the
  block's writes: the caller keeps the pre-block database, which is exactly
  the rollback semantics.
* The external API (`hotel/external_api.py`, excluded from scope by the spec)
  is a record `Api` of oracles returning either an `APIError` or the raw JSON
  string the source feeds to `clean_webhook_payload`.
-/

set_option autoImplicit false

namespace PmsSystems

/-- A decoded JSON value (result of Python's `json.loads`).  Objects keep their
key/value pairs in source order; numbers are integers (no float occurs in this
integration's payloads). -/
inductive Json where
  | null : Json
  | bool (b : Bool) : Json
  | num (n : Int) : Json
  | str (s : String) : Json
  | arr (elems : List Json) : Json
  | obj (fields : List (String × Json)) : Json
  deriving Repr

mutual

/-- Decidable equality on `Json`, written out by hand because `deriving`
cannot handle the nested inductive. -/
def decEqJson : (a b : Json) → Decidable (a = b)
  | .null, .null => isTrue rfl
  | .null, .bool _ => isFalse (fun h => Json.noConfusion h)
  | .null, .num _ => isFalse (fun h => Json.noConfusion h)
  | .null, .str _ => isFalse (fun h => Json.noConfusion h)
  | .null, .arr _ => isFalse (fun h => Json.noConfusion h)
  | .null, .obj _ => isFalse (fun h => Json.noConfusion h)
  | .bool _, .null => isFalse (fun h => Json.noConfusion h)
  | .bool a, .bool b =>
    if h : a = b then isTrue (by rw [h]) else isFalse (fun hh => h (Json.bool.inj hh))
  | .bool _, .num _ => isFalse (fun h => Json.noConfusion h)
  | .bool _, .str _ => isFalse (fun h => Json.noConfusion h)
  | .bool _, .arr _ => isFalse (fun h => Json.noConfusion h)
  | .bool _, .obj _ => isFalse (fun h => Json.noConfusion h)
  | .num _, .null => isFalse (fun h => Json.noConfusion h)
  | .num _, .bool _ => isFalse (fun h => Json.noConfusion h)
  | .num a, .num b =>
    if h : a = b then isTrue (by rw [h]) else isFalse (fun hh => h (Json.num.inj hh))
  | .num _, .str _ => isFalse (fun h => Json.noConfusion h)
  | .num _, .arr _ => isFalse (fun h => Json.noConfusion h)
  | .num _, .obj _ => isFalse (fun h => Json.noConfusion h)
  | .str _, .null => isFalse (fun h => Json.noConfusion h)
  | .str _, .bool _ => isFalse (fun h => Json.noConfusion h)
  | .str _, .num _ => isFalse (fun h => Json.noConfusion h)
  | .str a, .str b =>
    if h : a = b then isTrue (by rw [h]) else isFalse (fun hh => h (Json.str.inj hh))
  | .str _, .arr _ => isFalse (fun h => Json.noConfusion h)
  | .str _, .obj _ => isFalse (fun h => Json.noConfusion h)
  | .arr _, .null => isFalse (fun h => Json.noConfusion h)
  | .arr _, .bool _ => isFalse (fun h => Json.noConfusion h)
  | .arr _, .num _ => isFalse (fun h => Json.noConfusion h)
  | .arr _, .str _ => isFalse (fun h => Json.noConfusion h)
  | .arr as, .arr bs =>
    match decEqJsonList as bs with
    | isTrue h => isTrue (by rw [h])
    | isFalse h => isFalse (fun hh => h (Json.arr.inj hh))
  | .arr _, .obj _ => isFalse (fun h => Json.noConfusion h)
  | .obj _, .null => isFalse (fun h => Json.noConfusion h)
  | .obj _, .bool _ => isFalse (fun h => Json.noConfusion h)
  | .obj _, .num _ => isFalse (fun h => Json.noConfusion h)
  | .obj _, .str _ => isFalse (fun h => Json.noConfusion h)
  | .obj _, .arr _ => isFalse (fun h => Json.noConfusion h)
  | .obj as, .obj bs =>
    match decEqJsonFields as bs with
    | isTrue h => isTrue (by rw [h])
    | isFalse h => isFalse (fun hh => h (Json.obj.inj hh))

/-- Decidable equality on lists of `Json`. -/
def decEqJsonList : (as bs : List Json) → Decidable (as = bs)
  | [], [] => isTrue rfl
  | [], _ :: _ => isFalse (fun h => List.noConfusion h)
  | _ :: _, [] => isFalse (fun h => List.noConfusion h)
  | a :: as, b :: bs =>
    match decEqJson a b with
    | isFalse h => isFalse (fun hh => h (List.cons.inj hh).1)
    | isTrue h1 =>
      match decEqJsonList as bs with
      | isTrue h2 => isTrue (by rw [h1, h2])
      | isFalse h2 => isFalse (fun hh => h2 (List.cons.inj hh).2)

/-- Decidable equality on `Json` object field lists. -/
def decEqJsonFields : (as bs : List (String × Json)) → Decidable (as = bs)
  | [], [] => isTrue rfl
  | [], _ :: _ => isFalse (fun h => List.noConfusion h)
  | _ :: _, [] => isFalse (fun h => List.noConfusion h)
  | (k1, v1) :: as, (k2, v2) :: bs =>
    if hk : k1 = k2 then
      match decEqJson v1 v2 with
      | isFalse h => isFalse (fun hh => h (Prod.mk.inj (List.cons.inj hh).1).2)
      | isTrue h1 =>
        match decEqJsonFields as bs with
        | isTrue h2 => isTrue (by rw [hk, h1, h2])
        | isFalse h2 => isFalse (fun hh => h2 (List.cons.inj hh).2)
    else isFalse (fun hh => hk (Prod.mk.inj (List.cons.inj hh).1).1)

end

instance : DecidableEq Json := decEqJson

instance {ε α : Type} [DecidableEq ε] [DecidableEq α] : DecidableEq (Except ε α) :=
  fun a b =>
    match a, b with
    | .ok x, .ok y =>
      if h : x = y then isTrue (by rw [h]) else isFalse (fun hh => h (Except.ok.inj hh))
    | .error x, .error y =>
      if h : x = y then isTrue (by rw [h]) else isFalse (fun hh => h (Except.error.inj hh))
    | .ok _, .error _ => isFalse (fun h => Except.noConfusion h)
    | .error _, .ok _ => isFalse (fun h => Except.noConfusion h)

/-- Python truthiness of a decoded JSON value (`bool(x)`): `None`, `False`,
`0`, `""`, `[]` and `{}` are falsy, everything else truthy. -/
def truthy : Json → Bool
  | .null => false
  | .bool b => b
  | .num n => n != 0
  | .str s => s ≠ ""
  | .arr es => !es.isEmpty
  | .obj fs => !fs.isEmpty

/-- Truthiness of a `dict.get` result: `None` (absent key) is falsy. -/
def otruthy : Option Json → Bool
  | none => false
  | some v => truthy v

/-- Python `dict` lookup on the decoded field list.  For duplicate keys
`json.loads` keeps the last occurrence, hence the left fold. -/
def dictGet (fields : List (String × Json)) (k : String) : Option Json :=
  fields.foldl (fun acc p => if p.1 = k then some p.2 else acc) none

/-- The Python exceptions that the source can raise and catch. -/
inductive PyErr where
  | valueError : PyErr
  | apiError : PyErr
  | keyError : PyErr
  | typeError : PyErr
  | attributeError : PyErr
  | doesNotExist : PyErr
  deriving DecidableEq, Repr

/-- Python `x.get(k)` for an arbitrary decoded value `x`: an `AttributeError`
when `x` is not a dict. -/
def pyGet (j : Json) (k : String) : Except PyErr (Option Json) :=
  match j with
  | .obj fs => .ok (dictGet fs k)
  | _ => .error .attributeError

/-- Python `x[k]` with a string key: `KeyError` when the dict misses the key,
`TypeError` when `x` is not a dict. -/
def pyIndex (j : Json) (k : String) : Except PyErr Json :=
  match j with
  | .obj fs =>
    match dictGet fs k with
    | some v => .ok v
    | none => .error .keyError
  | _ => .error .typeError

/-! ## A model of `json.loads`

Recursive-descent parser with explicit fuel (every recursive step strictly
decreases the fuel; the top level passes `length + 1`, enough because each
nesting level consumes at least one character). -/

/-- JSON insignificant whitespace. -/
def isWs (c : Char) : Bool :=
  c = ' ' || c = '\n' || c = '\t' || c = '\r'

/-- Drop leading whitespace. -/
def skipWs : List Char → List Char
  | [] => []
  | c :: cs => if isWs c then skipWs cs else c :: cs

/-- The `\x7b` character (opening curly brace). -/
def obraceChar : Char := Char.ofNat 123

/-- The `\x7d` character (closing curly brace). -/
def cbraceChar : Char := Char.ofNat 125

/-- Value of a hexadecimal digit, if any. -/
def hexVal (c : Char) : Option Nat :=
  if '0' ≤ c ∧ c ≤ '9' then some (c.toNat - 48)
  else if 'a' ≤ c ∧ c ≤ 'f' then some (c.toNat - 87)
  else if 'A' ≤ c ∧ c ≤ 'F' then some (c.toNat - 55)
  else none

/-- Body of a JSON string literal, after the opening quote: the decoded
characters and the rest of the input after the closing quote. -/
def parseStringChars : Nat → List Char → Option (List Char × List Char)
  | 0, _ => none
  | _ + 1, [] => none
  | fuel + 1, c :: cs =>
    if c = '"' then some ([], cs)
    else if c = '\\' then
      match cs with
      | [] => none
      | e :: cs2 =>
        let simpleEsc : Option Char :=
          if e = '"' then some '"'
          else if e = '\\' then some '\\'
          else if e = '/' then some '/'
          else if e = 'n' then some '\n'
          else if e = 't' then some '\t'
          else if e = 'r' then some '\r'
          else if e = 'b' then some (Char.ofNat 8)
          else if e = 'f' then some (Char.ofNat 12)
          else none
        match simpleEsc with
        | some ch =>
          (parseStringChars fuel cs2).map (fun r => (ch :: r.1, r.2))
        | none =>
          if e = 'u' then
            match cs2 with
            | h1 :: h2 :: h3 :: h4 :: cs3 =>
              match hexVal h1, hexVal h2, hexVal h3, hexVal h4 with
              | some a, some b, some c3, some d =>
                (parseStringChars fuel cs3).map
                  (fun r => (Char.ofNat (((a * 16 + b) * 16 + c3) * 16 + d) :: r.1, r.2))
              | _, _, _, _ => none
            | _ => none
          else none
    else (parseStringChars fuel cs).map (fun r => (c :: r.1, r.2))

/-- Digit run to a natural number. -/
def digitsToNat (ds : List Char) : Nat :=
  ds.foldl (fun a c => a * 10 + (c.toNat - 48)) 0

/-- JSON number literal (integers only; a fraction or exponent is rejected by
the model, no float occurs in this integration's data).  Leading zeros are
rejected as in Python's `json`. -/
def parseNumber (cs : List Char) : Option (Json × List Char) :=
  let p := match cs with
    | c :: t => if c = '-' then (true, t) else (false, cs)
    | [] => (false, cs)
  let ds := p.2.takeWhile (fun c => c.isDigit)
  let rest := p.2.dropWhile (fun c => c.isDigit)
  if ds.isEmpty then none
  else if ds.length > 1 ∧ ds.headI = '0' then none
  else
    match rest with
    | '.' :: _ => none
    | 'e' :: _ => none
    | 'E' :: _ => none
    | _ =>
      let n : Int := Int.ofNat (digitsToNat ds)
      some (.num (if p.1 then -n else n), rest)

mutual

/-- One JSON value, returning the remaining input. -/
def parseValue : Nat → List Char → Option (Json × List Char)
  | 0, _ => none
  | fuel + 1, cs0 =>
    match skipWs cs0 with
    | [] => none
    | c :: rest =>
      if c = '"' then
        match parseStringChars (rest.length + 1) rest with
        | some (chars, rest2) => some (.str (String.mk chars), rest2)
        | none => none
      else if c = obraceChar then
        match skipWs rest with
        | c2 :: rest2 =>
          if c2 = cbraceChar then some (.obj [], rest2)
          else parseMembers fuel rest []
        | [] => none
      else if c = '[' then
        match skipWs rest with
        | c2 :: rest2 =>
          if c2 = ']' then some (.arr [], rest2)
          else parseElems fuel rest []
        | [] => none
      else if c = 't' then
        match rest with
        | 'r' :: 'u' :: 'e' :: r2 => some (.bool true, r2)
        | _ => none
      else if c = 'f' then
        match rest with
        | 'a' :: 'l' :: 's' :: 'e' :: r2 => some (.bool false, r2)
        | _ => none
      else if c = 'n' then
        match rest with
        | 'u' :: 'l' :: 'l' :: r2 => some (.null, r2)
        | _ => none
      else parseNumber (c :: rest)

/-- Array elements after `[` (at least one element; `[]` is handled by
`parseValue`).  `acc` is the reversed list of elements parsed so far. -/
def parseElems : Nat → List Char → List Json → Option (Json × List Char)
  | 0, _, _ => none
  | fuel + 1, cs, acc =>
    match parseValue fuel cs with
    | none => none
    | some (v, rest) =>
      match skipWs rest with
      | ',' :: r2 => parseElems fuel r2 (v :: acc)
      | ']' :: r2 => some (.arr (v :: acc).reverse, r2)
      | _ => none

/-- Object members after the opening brace (at least one member; the empty
object is handled by `parseValue`). -/
def parseMembers : Nat → List Char → List (String × Json) → Option (Json × List Char)
  | 0, _, _ => none
  | fuel + 1, cs, acc =>
    match skipWs cs with
    | '"' :: rest =>
      match parseStringChars (rest.length + 1) rest with
      | none => none
      | some (kcs, r2) =>
        match skipWs r2 with
        | ':' :: r3 =>
          match parseValue fuel r3 with
          | none => none
          | some (v, r4) =>
            match skipWs r4 with
            | ',' :: r5 => parseMembers fuel r5 ((String.mk kcs, v) :: acc)
            | c5 :: r5 =>
              if c5 = cbraceChar then some (.obj ((String.mk kcs, v) :: acc).reverse, r5)
              else none
            | [] => none
        | _ => none
    | _ => none

end

/-- Model of Python's `json.loads`: parse one JSON document, requiring only
whitespace after it; any failure is a `JSONDecodeError` (an `Except.error`). -/
def json_loads (s : String) : Except Unit Json :=
  let cs := s.toList
  match parseValue (cs.length + 1) cs with
  | some (v, rest) =>
    match skipWs rest with
    | [] => .ok v
    | _ => .error ()
  | none => .error ()

/-- `PMS_Mews.clean_webhook_payload` (src/hotel/pms_systems.py:85-97).
An empty payload raises `ValueError`, which the method itself catches and
turns into `{}`; a `json.loads` failure (`JSONDecodeError`, a subclass of
`ValueError`) is caught the same way; otherwise the decoded value is returned
unchanged, whatever its type. -/
def clean_webhook_payload (payload : String) : Json :=
  if payload = "" then .obj []
  else
    match json_loads payload with
    | .ok v => v
    | .error _ => .obj []

/-! ## Data model

The persistent store (`hotel/models.py`, an external collaborator per the
spec's scope) is a value: the list of hotel ids plus the `Stay` and `Guest`
rows that `pms_systems.py` reads and writes. -/

/-- One `Stay` row.  `pms_reservation_id` keeps the raw decoded value the
source passes as the `update_or_create` key; `hotel` is the hotel's
`pms_hotel_id`; `guest` is the linked guest's `phone` key (`None` until
`stay.guest = guest; stay.save()` runs). -/
structure StayRow where
  pms_reservation_id : Json
  hotel : String
  pms_guest_id : Option Json
  checkin : Option Json
  checkout : Option Json
  status : Option Json
  guest : Option Json
  deriving DecidableEq, Repr

/-- One `Guest` row, keyed by `phone` (always a truthy value: the source
validates the phone before the upsert). -/
structure GuestRow where
  phone : Json
  name : Option Json
  deriving DecidableEq, Repr

/-- The persistent store. -/
structure DB where
  hotels : List String
  stays : List StayRow
  guests : List GuestRow
  deriving DecidableEq, Repr

/-- The `defaults={...}` dict of the `Stay` upserts. -/
structure StayDefaults where
  pms_guest_id : Option Json
  checkin : Option Json
  checkout : Option Json
  status : Option Json
  deriving DecidableEq, Repr

/-- The filter of `Stay.objects.update_or_create(pms_reservation_id=...,
hotel=...)`. -/
def stayMatches (rid : Json) (h : String) (r : StayRow) : Bool :=
  r.pms_reservation_id == rid && r.hotel == h

/-- Overwrite the fields listed in `defaults={...}` of the `Stay` upsert;
the key fields and the `guest` link are untouched. -/
def applyStayDefaults (d : StayDefaults) (r : StayRow) : StayRow :=
  { r with pms_guest_id := d.pms_guest_id, checkin := d.checkin,
           checkout := d.checkout, status := d.status }

/-- `Stay.objects.update_or_create(pms_reservation_id=rid, hotel=h,
defaults=d)`: update the matching row, or create it with `guest` unset. -/
def update_or_create_stay (stays : List StayRow) (rid : Json) (h : String)
    (d : StayDefaults) : List StayRow :=
  match stays with
  | [] => [{ pms_reservation_id := rid, hotel := h, pms_guest_id := d.pms_guest_id,
             checkin := d.checkin, checkout := d.checkout, status := d.status,
             guest := none }]
  | r :: rs =>
    if stayMatches rid h r then applyStayDefaults d r :: rs
    else r :: update_or_create_stay rs rid h d

/-- `Guest.objects.update_or_create(phone=p, defaults={"name": nm})`. -/
def update_or_create_guest (guests : List GuestRow) (p : Json) (nm : Option Json) :
    List GuestRow :=
  match guests with
  | [] => [{ phone := p, name := nm }]
  | g :: gs =>
    if g.phone == p then { g with name := nm } :: gs
    else g :: update_or_create_guest gs p nm

/-- `stay.guest = guest; stay.save()`: store the guest link on the stay row
the upsert just returned (the row matching the upsert's keys). -/
def setStayGuest (stays : List StayRow) (rid : Json) (h : String) (p : Json) :
    List StayRow :=
  match stays with
  | [] => []
  | r :: rs =>
    if stayMatches rid h r then { r with guest := some p } :: rs
    else r :: setStayGuest rs rid h p

/-- `Hotel.objects.get(pms_hotel_id=hid)`: `Hotel.DoesNotExist` (caught by the
generic `except`) when no hotel has that id; the column is a string. -/
def hotelLookup (hotels : List String) (hid : Json) : Except PyErr String :=
  match hid with
  | .str s => if hotels.contains s then .ok s else .error .doesNotExist
  | _ => .error .typeError

/-! ## External API

`hotel/external_api.py` is excluded from scope by the spec; its three
functions are oracles returning either an `APIError` or the raw JSON string
the source feeds to `clean_webhook_payload`.  The date arguments of
`get_reservations_between_dates` are computed from the wall clock
(`datetime.now()`), which has no shallow embedding; a run queries one fixed
window, so its response is a single oracle value. -/
structure Api where
  get_reservation_details : Json → Except PyErr String
  get_guest_details : Json → Except PyErr String
  get_reservations_between_dates : Except PyErr String

/-- The `if not x: raise ValueError(...)` pattern of the source applied to a
`dict.get` result that is then used: yields the value when truthy, raises
`ValueError` when missing or falsy. -/
def requireTruthy (x : Option Json) : Except PyErr Json :=
  match x with
  | some v => if truthy v then .ok v else .error .valueError
  | none => .error .valueError

/-- `validate_phone_number` (src/hotel/pms_systems.py:264-272): raises
`ValueError` when the phone is missing or falsy (blank).  The format check
via the `phonenumbers` library is commented out in the source and therefore
absent from the model.  The model returns the validated value; the call sites
re-read the same dict entry, which is that same value. -/
def validate_phone_number (phone_number : Option Json) : Except PyErr Json :=
  match phone_number with
  | some p => if truthy p then .ok p else .error .valueError
  | none => .error .valueError

/-- `datetime.strptime(v, '%Y-%m-%d')`: `TypeError` when `v` is not a string
(in particular `None` for a missing key), `ValueError` when it does not match
the format.  The parsed date is represented by its (validated) string. -/
def validYmd (s : String) : Bool :=
  match s.toList with
  | [y1, y2, y3, y4, s1, m1, m2, s2, d1, d2] =>
    y1.isDigit && y2.isDigit && y3.isDigit && y4.isDigit &&
    s1 = '-' && m1.isDigit && m2.isDigit && s2 = '-' && d1.isDigit && d2.isDigit &&
    (let m := 10 * (m1.toNat - 48) + (m2.toNat - 48)
     let d := 10 * (d1.toNat - 48) + (d2.toNat - 48)
     1 ≤ m && m ≤ 12 && 1 ≤ d && d ≤ 31)
  | _ => false

/-- See `validYmd`. -/
def strptimeYmd (v : Option Json) : Except PyErr String :=
  match v with
  | some (.str s) => if validYmd s then .ok s else .error .valueError
  | some _ => .error .typeError
  | none => .error .typeError

/-- Python `for x in v` over a decoded JSON value: a list yields its elements,
a dict its keys, a string its characters; `None`, booleans and numbers raise
`TypeError`. -/
def iterJson : Json → Except PyErr (List Json)
  | .arr es => .ok es
  | .obj fs => .ok (fs.map (fun p => .str p.1))
  | .str s => .ok (s.toList.map (fun c => .str (String.mk [c])))
  | _ => .error .typeError

/-- `for event in hotel_events` where `hotel_events` came from `dict.get`:
iterating `None` raises `TypeError`. -/
def iterOpt : Option Json → Except PyErr (List Json)
  | none => .error .typeError
  | some v => iterJson v

/-- `get_guest_details(guest_id) if guest_id else "{}"` (used by both
methods): a missing or falsy guest id short-circuits to the literal empty
JSON object string. -/
def fetchGuestPayload (api : Api) (guest_id : Option Json) : Except PyErr String :=
  match guest_id with
  | some g => if truthy g then api.get_guest_details g else .ok "\x7b\x7d"
  | none => .ok "\x7b\x7d"

/-- The writes committed by one successful per-reservation atomic block, in
source order: `Stay` upsert, `Guest` upsert, then `stay.guest = guest;
stay.save()` (shared shape of lines 120-144 and 195-224). -/
def commitWrites (db : DB) (rid : Json) (hotel : String) (d : StayDefaults)
    (p : Json) (nm : Option Json) : DB :=
  { db with
    stays := setStayGuest (update_or_create_stay db.stays rid hotel d) rid hotel p,
    guests := update_or_create_guest db.guests p nm }

/-- Number of `Stay` rows matching one `(reservation id, hotel)` pair. -/
def countStays (stays : List StayRow) (rid : Json) (h : String) : Nat :=
  (stays.filter (fun r => stayMatches rid h r)).length

/-- "The guest details have a missing or blank phone number": every `Phone`
entry `dict.get` can return from them is falsy. -/
def phoneMissing (j : Json) : Prop :=
  ∀ p, pyGet j "Phone" = .ok (some p) → truthy p = false

/-! ## `PMS_Mews.handle_webhook` (src/hotel/pms_systems.py:99-156) -/

/-- The body of the `for event in hotel_events` loop (lines 108-144).  The
`with transaction.atomic()` block starts at the `Stay` upsert; an
`Except.error` result never publishes the block's writes, which is the
rollback Django performs when an exception escapes the block. -/
def processEvent (api : Api) (hotel : String) (db : DB) (event : Json) :
    Except PyErr DB := do
  let value ← pyIndex event "Value"
  let reservation_id ← pyGet value "ReservationId"
  -- if not reservation_id: raise ValueError(...)
  let rid ← requireTruthy reservation_id
  let rdStr ← api.get_reservation_details rid
  let reservation_details := clean_webhook_payload rdStr
  let guest_id ← pyGet reservation_details "GuestId"
  let gdStr ← fetchGuestPayload api guest_id
  let guest_details := clean_webhook_payload gdStr
  -- with transaction.atomic():  (the Stay upsert of line 122 runs first and
  -- is rolled back when a later line of the block raises; `commitWrites`
  -- below publishes the block's writes only on success)
  let gid2 ← pyGet reservation_details "GuestId"
  let ci ← pyGet reservation_details "CheckInDate"
  let co ← pyGet reservation_details "CheckOutDate"
  let st ← pyGet reservation_details "Status"
  let phone_number ← pyGet guest_details "Phone"
  let p ← validate_phone_number phone_number
  let nm ← pyGet guest_details "Name"
  pure (commitWrites db rid hotel ⟨gid2, ci, co, st⟩ p nm)

/-- The event loop.  The `try/except` wrapping it is outside the loop: the
first failing event stops the loop and the method returns `False`, keeping
the writes of the events already processed (each ran in its own committed
savepoint, and the method-level `@transaction.atomic` commits because the
exception is caught inside the method). -/
def processEvents (api : Api) (hotel : String) : DB → List Json → DB × Bool
  | db, [] => (db, true)
  | db, e :: es =>
    match processEvent api hotel db e with
    | .ok db1 => processEvents api hotel db1 es
    | .error _ => (db, false)

/-- `PMS_Mews.handle_webhook`.  Every exception raised in the body is caught
by one of the three `except` clauses and turned into `False`. -/
def handle_webhook (api : Api) (webhook_data : List (String × Json)) (db : DB) :
    DB × Bool :=
  match dictGet webhook_data "HotelId" with
  | none => (db, false)
  | some hid =>
    if truthy hid then
      match hotelLookup db.hotels hid with
      | .error _ => (db, false)
      | .ok hotel =>
        match iterOpt (dictGet webhook_data "Events") with
        | .error _ => (db, false)
        | .ok events => processEvents api hotel db events
    else (db, false)

/-! ## `PMS_Mews.update_tomorrows_stays` (src/hotel/pms_systems.py:158-236) -/

/-- The body of the `for stay_data in stays_to_update` loop (lines 178-224).
A stub with a missing/falsy `ReservationId` or `HotelId` is skipped
(`continue`): the store is returned unchanged.  The `with
transaction.atomic()` block starts at the `Stay` upsert (whose `defaults`
dict, including the two `strptime` calls, is evaluated when the upsert is
called). -/
def processStub (api : Api) (db : DB) (stub : Json) : Except PyErr DB := do
  let reservation_id ← pyGet stub "ReservationId"
  let hotel_id ← pyGet stub "HotelId"
  if otruthy reservation_id && otruthy hotel_id then
    match reservation_id, hotel_id with
    | some rid, some hid => do
      let rdStr ← api.get_reservation_details rid
      let reservation_details := clean_webhook_payload rdStr
      let guest_id ← pyGet reservation_details "GuestId"
      let hotel ← hotelLookup db.hotels hid
      -- with transaction.atomic():
      let st ← pyGet reservation_details "Status"
      let ci ← strptimeYmd (← pyGet reservation_details "CheckInDate")
      let co ← strptimeYmd (← pyGet reservation_details "CheckOutDate")
      let gdStr ← fetchGuestPayload api guest_id
      let guest_details := clean_webhook_payload gdStr
      let phone_number ← pyGet guest_details "Phone"
      let p ← validate_phone_number phone_number
      let nm ← pyGet guest_details "Name"
      pure (commitWrites db rid hotel ⟨guest_id, some (.str ci), some (.str co), st⟩ p nm)
    | _, _ => throw .typeError -- unreachable: `otruthy none = false`
  else pure db

/-- The stub loop; as in `handle_webhook` the `try/except` is outside the
loop, so the first failing stub stops the run. -/
def processStubs (api : Api) : DB → List Json → DB × Bool
  | db, [] => (db, true)
  | db, s :: ss =>
    match processStub api db s with
    | .ok db1 => processStubs api db1 ss
    | .error _ => (db, false)

/-- `PMS_Mews.update_tomorrows_stays`.  The queried window's response is
parsed with `clean_webhook_payload` and iterated directly. -/
def update_tomorrows_stays (api : Api) (db : DB) : DB × Bool :=
  match api.get_reservations_between_dates with
  | .error _ => (db, false)
  | .ok s =>
    let stays_to_update := clean_webhook_payload s
    match iterJson stays_to_update with
    | .error _ => (db, false)
    | .ok stubs => processStubs api db stubs

/-! ## `PMS_Mews.stay_has_breakfast` (src/hotel/pms_systems.py:238-250) -/

/-- `stay_has_breakfast`: `None` when `get_reservation_details` raises, or
when the cleaned payload is not a dict (`.get` raises `AttributeError`,
caught by the method's `except`); otherwise the raw value of
`"BreakfastIncluded"` with default `False`.  A parse failure inside
`clean_webhook_payload` is swallowed there and yields `{}`, hence `False`. -/
def stay_has_breakfast (api : Api) (stay : StayRow) : Option Json :=
  match api.get_reservation_details stay.pms_reservation_id with
  | .error _ => none
  | .ok s =>
    match clean_webhook_payload s with
    | .obj fs => some ((dictGet fs "BreakfastIncluded").getD (.bool false))
    | _ => none

/-! ## Country → language mapping (spec-modelled) -/

/-- Is `pre` a prefix of the second list? -/
def startsWithChars : List Char → List Char → Bool
  | [], _ => true
  | _ :: _, [] => false
  | n :: ns, h :: hs => n = h && startsWithChars ns hs

/-- Is `needle` a contiguous sublist of the second list? -/
def containsChars (needle : List Char) : List Char → Bool
  | [] => needle.isEmpty
  | h :: hs => startsWithChars needle (h :: hs) || containsChars needle hs

/-- Modelled from the spec: the fixed country→language table of §4.4.  The
mapping itself is not in `src/hotel/pms_systems.py` (the only source file
provided); the entries the spec names are "de" → German (§8) and "nl" →
Dutch (§8's example). -/
def languageTable : List (String × String) := [("de", "German"), ("nl", "Dutch")]

/-- ASCII lowercase (the table keys are lowercase country codes). -/
def lowerChar (c : Char) : Char :=
  if 'A' ≤ c ∧ c ≤ 'Z' then Char.ofNat (c.toNat + 32) else c

/-- Modelled from the spec (§4.4): the country→language mapping used when
upserting a Guest.  An absent country code yields the sentinel
`"No country code"`; otherwise the first table key contained (as a substring,
case-insensitively) in the code gives the language; no match yields the
sentinel `"Unknown"`.  Never a failure. -/
def get_language_from_country (country : Option String) : String :=
  match country with
  | none => "No country code"
  | some c =>
    match languageTable.find?
        (fun p => containsChars p.1.toList (c.toList.map lowerChar)) with
    | some p => p.2
    | none => "Unknown"

/-! ## Concrete fixtures (used by witnesses and counterexamples) -/

/-- An API whose every call raises `APIError`, except that the nightly window
query returns the empty reservation list. -/
def w10Api : Api :=
  { get_reservation_details := fun _ => .error .apiError
    get_guest_details := fun _ => .error .apiError
    get_reservations_between_dates := .ok "[]" }

/-- An empty store with one hotel `"h1"`. -/
def exDb : DB := { hotels := ["h1"], stays := [], guests := [] }

/-- Reservation details payload used by fixtures: guest `g1`, May 2024 stay. -/
def exResPayload : String :=
  "\x7b\"GuestId\":\"g1\",\"CheckInDate\":\"2024-05-01\",\"CheckOutDate\":\"2024-05-03\",\"Status\":\"Confirmed\"\x7d"

/-- Guest details payload with a phone and a name. -/
def exGuestPayload : String :=
  "\x7b\"Name\":\"Jan\",\"Phone\":\"+31612345678\",\"Country\":\"nl\"\x7d"

/-- Guest details payload with a name but no phone. -/
def exGuestNoPhonePayload : String := "\x7b\"Name\":\"Bo\"\x7d"

/-- Guest details payload with a phone but no name. -/
def exGuestNoNamePayload : String := "\x7b\"Phone\":\"+31612345678\"\x7d"

/-- API fixture: reservation `r1` → guest `g1` (complete details),
reservation `r2` → guest `g2` (no phone), reservation `r3` → guest `g3`
(phone but no name), reservation `r4` → guest `g9` (whose details fetch
raises `APIError`); any other id raises `APIError`. -/
def exApi : Api :=
  { get_reservation_details := fun rid =>
      if rid = .str "r1" then .ok exResPayload
      else if rid = .str "r2" then
        .ok "\x7b\"GuestId\":\"g2\",\"CheckInDate\":\"2024-05-01\",\"CheckOutDate\":\"2024-05-03\",\"Status\":\"Confirmed\"\x7d"
      else if rid = .str "r3" then
        .ok "\x7b\"GuestId\":\"g3\",\"CheckInDate\":\"2024-05-01\",\"CheckOutDate\":\"2024-05-03\",\"Status\":\"Confirmed\"\x7d"
      else if rid = .str "r4" then
        .ok "\x7b\"GuestId\":\"g9\",\"CheckInDate\":\"2024-05-01\",\"CheckOutDate\":\"2024-05-03\",\"Status\":\"Confirmed\"\x7d"
      else .error .apiError
    get_guest_details := fun g =>
      if g = .str "g1" then .ok exGuestPayload
      else if g = .str "g2" then .ok exGuestNoPhonePayload
      else if g = .str "g3" then .ok exGuestNoNamePayload
      else .error .apiError
    get_reservations_between_dates :=
      .ok "[\x7b\"ReservationId\":\"r1\",\"HotelId\":\"h1\"\x7d,\x7b\"HotelId\":\"h1\"\x7d]" }

/-- A webhook event for reservation `rid`. -/
def mkEvent (rid : String) : Json :=
  .obj [("Value", .obj [("ReservationId", .str rid)])]

/-- `exApi` with every guest-details response lacking a phone. -/
def exApiNoPhone : Api :=
  { get_reservation_details := exApi.get_reservation_details
    get_guest_details := fun _ => .ok exGuestNoPhonePayload
    get_reservations_between_dates := exApi.get_reservations_between_dates }

/-- A complete nightly-sync stub for reservation `r1` at hotel `h1`. -/
def exStub1 : Json := .obj [("ReservationId", .str "r1"), ("HotelId", .str "h1")]

/-- The store after successfully reconciling reservation `r1` from `exDb`. -/
def exDb1 : DB :=
  { hotels := ["h1"]
    stays := [{ pms_reservation_id := .str "r1", hotel := "h1",
                pms_guest_id := some (.str "g1"),
                checkin := some (.str "2024-05-01"),
                checkout := some (.str "2024-05-03"),
                status := some (.str "Confirmed"),
                guest := some (.str "+31612345678") }]
    guests := [{ phone := .str "+31612345678", name := some (.str "Jan") }] }

/-- The store after successfully reconciling reservation `r3` (whose guest
has a phone but no name) from `exDb`. -/
def exDb3 : DB :=
  { hotels := ["h1"]
    stays := [{ pms_reservation_id := .str "r3", hotel := "h1",
                pms_guest_id := some (.str "g3"),
                checkin := some (.str "2024-05-01"),
                checkout := some (.str "2024-05-03"),
                status := some (.str "Confirmed"),
                guest := some (.str "+31612345678") }]
    guests := [{ phone := .str "+31612345678", name := none }] }

/-- Webhook payload (already cleaned) for hotel `h1` with the given events. -/
def mkWd (events : List Json) : List (String × Json) :=
  [("HotelId", .str "h1"), ("Events", .arr events)]

/-! ## General lemmas -/

theorem ebind_ok {ε α β : Type} (a : α) (f : α → Except ε β) :
    (Except.ok a >>= f) = f a := rfl

theorem ebind_err {ε α β : Type} (e : ε) (f : α → Except ε β) :
    ((Except.error e : Except ε α) >>= f) = Except.error e := rfl

theorem ethrow {ε α : Type} (e : ε) : (throw e : Except ε α) = Except.error e := rfl

theorem epure {ε α : Type} (a : α) : (pure a : Except ε α) = Except.ok a := rfl

theorem pyGet_obj (fs : List (String × Json)) (k : String) :
    pyGet (.obj fs) k = .ok (dictGet fs k) := rfl

theorem json_loads_empty : json_loads "" = .error () := rfl

theorem processEvents_nil (api : Api) (hotel : String) (db : DB) :
    processEvents api hotel db [] = (db, true) := rfl

theorem processEvents_cons (api : Api) (hotel : String) (db : DB) (e : Json)
    (es : List Json) :
    processEvents api hotel db (e :: es) =
      match processEvent api hotel db e with
      | .ok db1 => processEvents api hotel db1 es
      | .error _ => (db, false) := rfl

theorem processStubs_nil (api : Api) (db : DB) :
    processStubs api db [] = (db, true) := rfl

theorem processStubs_cons (api : Api) (db : DB) (s : Json) (ss : List Json) :
    processStubs api db (s :: ss) =
      match processStub api db s with
      | .ok db1 => processStubs api db1 ss
      | .error _ => (db, false) := rfl

theorem ebind_eq_ok {ε α β : Type} {x : Except ε α} {f : α → Except ε β} {b : β} :
    (x >>= f) = .ok b ↔ ∃ a, x = .ok a ∧ f a = .ok b := by
  cases x with
  | ok a => simp [ebind_ok]
  | error e => simp [ebind_err]

theorem emap_ok {ε α β : Type} (f : α → β) (a : α) :
    (f <$> (Except.ok a : Except ε α)) = .ok (f a) := rfl

theorem emap_err {ε α β : Type} (f : α → β) (e : ε) :
    (f <$> (Except.error e : Except ε α)) = .error e := rfl

theorem emap_eq_ok {ε α β : Type} {f : α → β} {x : Except ε α} {b : β} :
    (f <$> x) = .ok b ↔ ∃ a, x = .ok a ∧ f a = b := by
  cases x with
  | ok a => simp [emap_ok]
  | error e => simp [emap_err]

theorem requireTruthy_ok {x : Option Json} {v : Json} (h : requireTruthy x = .ok v) :
    x = some v ∧ truthy v = true := by
  match x with
  | none => exact Except.noConfusion h
  | some q =>
    rw [show requireTruthy (some q) =
        if truthy q then .ok q else .error .valueError from rfl] at h
    cases hq : truthy q with
    | false => rw [hq] at h; simp at h
    | true =>
      rw [hq, if_pos rfl] at h
      obtain rfl := Except.ok.inj h
      exact ⟨rfl, hq⟩

theorem validate_phone_number_ok {pn : Option Json} {p : Json}
    (h : validate_phone_number pn = .ok p) : pn = some p ∧ truthy p = true := by
  match pn with
  | none => exact Except.noConfusion h
  | some q =>
    rw [show validate_phone_number (some q) =
        if truthy q then .ok q else .error .valueError from rfl] at h
    cases hq : truthy q with
    | false => rw [hq] at h; simp at h
    | true =>
      rw [hq, if_pos rfl] at h
      obtain rfl := Except.ok.inj h
      exact ⟨rfl, hq⟩

theorem fetchGuestPayload_ok_cases {api : Api} {guest_id : Option Json} {gdStr : String}
    (h : fetchGuestPayload api guest_id = .ok gdStr) :
    (∃ g, guest_id = some g ∧ truthy g = true ∧ api.get_guest_details g = .ok gdStr) ∨
      gdStr = "\x7b\x7d" := by
  match guest_id with
  | none => exact Or.inr (Except.ok.inj h).symm
  | some g =>
    rw [show fetchGuestPayload api (some g) =
        if truthy g then api.get_guest_details g else .ok "\x7b\x7d" from rfl] at h
    cases hg : truthy g with
    | false =>
      rw [hg, if_neg (by simp)] at h
      exact Or.inr (Except.ok.inj h).symm
    | true =>
      rw [hg, if_pos rfl] at h
      exact Or.inl ⟨g, rfl, hg, h⟩

/-- Inversion of a successful `processEvent`: every intermediate step
succeeded, the phone was present and truthy, and the result is exactly the
atomic block's writes applied to the incoming store. -/
theorem processEvent_ok_inv {api : Api} {hotel : String} {db : DB} {event : Json}
    {db' : DB} (h : processEvent api hotel db event = .ok db') :
    ∃ (v rid : Json) (rdStr : String) (guest_id : Option Json) (gdStr : String)
      (ci co st nm : Option Json) (p : Json),
      pyIndex event "Value" = .ok v ∧
      pyGet v "ReservationId" = .ok (some rid) ∧
      truthy rid = true ∧
      api.get_reservation_details rid = .ok rdStr ∧
      pyGet (clean_webhook_payload rdStr) "GuestId" = .ok guest_id ∧
      fetchGuestPayload api guest_id = .ok gdStr ∧
      pyGet (clean_webhook_payload rdStr) "CheckInDate" = .ok ci ∧
      pyGet (clean_webhook_payload rdStr) "CheckOutDate" = .ok co ∧
      pyGet (clean_webhook_payload rdStr) "Status" = .ok st ∧
      pyGet (clean_webhook_payload gdStr) "Phone" = .ok (some p) ∧
      truthy p = true ∧
      pyGet (clean_webhook_payload gdStr) "Name" = .ok nm ∧
      db' = commitWrites db rid hotel ⟨guest_id, ci, co, st⟩ p nm := by
  unfold processEvent at h
  simp only [ebind_eq_ok, emap_eq_ok, epure, Except.ok.injEq] at h
  obtain ⟨v, h1, h⟩ := h
  obtain ⟨ridOpt, h2, h⟩ := h
  obtain ⟨rid, hreq, h⟩ := h
  obtain ⟨rdStr, h4, h⟩ := h
  obtain ⟨guest_id, h5, h⟩ := h
  obtain ⟨gdStr, h6, h⟩ := h
  obtain ⟨gid2, h5b, h⟩ := h
  obtain ⟨ci, h7, h⟩ := h
  obtain ⟨co, h8, h⟩ := h
  obtain ⟨st, h9, h⟩ := h
  obtain ⟨phone_number, h10, h⟩ := h
  obtain ⟨p, hval, h⟩ := h
  obtain ⟨nm, h11, hdb⟩ := h
  obtain ⟨hrt, hrtruthy⟩ := requireTruthy_ok hreq
  subst hrt
  obtain ⟨hpn, hpt⟩ := validate_phone_number_ok hval
  subst hpn
  rw [h5] at h5b
  obtain rfl := Except.ok.inj h5b
  exact ⟨v, rid, rdStr, guest_id, gdStr, ci, co, st, nm, p,
    h1, h2, hrtruthy, h4, h5, h6, h7, h8, h9, h10, hpt, h11, hdb.symm⟩

/-- Replay of a successful `processEvent`: the per-event control flow depends
only on the API and the event, so the same writes apply from any store. -/
theorem processEvent_ok_run (api : Api) (hotel : String) (event : Json)
    (v rid : Json) (rdStr : String) (guest_id : Option Json) (gdStr : String)
    (ci co st nm : Option Json) (p : Json)
    (h1 : pyIndex event "Value" = .ok v)
    (h2 : pyGet v "ReservationId" = .ok (some rid))
    (h3 : truthy rid = true)
    (h4 : api.get_reservation_details rid = .ok rdStr)
    (h5 : pyGet (clean_webhook_payload rdStr) "GuestId" = .ok guest_id)
    (h6 : fetchGuestPayload api guest_id = .ok gdStr)
    (h7 : pyGet (clean_webhook_payload rdStr) "CheckInDate" = .ok ci)
    (h8 : pyGet (clean_webhook_payload rdStr) "CheckOutDate" = .ok co)
    (h9 : pyGet (clean_webhook_payload rdStr) "Status" = .ok st)
    (h10 : pyGet (clean_webhook_payload gdStr) "Phone" = .ok (some p))
    (h11 : truthy p = true)
    (h12 : pyGet (clean_webhook_payload gdStr) "Name" = .ok nm) :
    ∀ dbX : DB, processEvent api hotel dbX event =
      .ok (commitWrites dbX rid hotel ⟨guest_id, ci, co, st⟩ p nm) := by
  intro dbX
  simp [processEvent, h1, h2, h3, h4, h5, h6, h7, h8, h9, h10,
    requireTruthy, validate_phone_number, h11, h12, ebind_ok, ebind_err,
    emap_ok, emap_err]

/-- Inversion of a successful `processStub`: either the stub lacked a truthy
reservation or hotel id and was skipped with the store unchanged, or every
step succeeded and the result is the atomic block's writes. -/
theorem processStub_ok_inv {api : Api} {db : DB} {stub : Json} {db' : DB}
    (h : processStub api db stub = .ok db') :
    (∃ ridOpt hidOpt, pyGet stub "ReservationId" = .ok ridOpt ∧
      pyGet stub "HotelId" = .ok hidOpt ∧
      (otruthy ridOpt && otruthy hidOpt) = false ∧ db' = db) ∨
    (∃ (rid hid : Json) (rdStr : String) (guest_id : Option Json) (hotel : String)
        (st civ cov : Option Json) (ci co : String) (gdStr : String)
        (nm : Option Json) (p : Json),
      pyGet stub "ReservationId" = .ok (some rid) ∧ truthy rid = true ∧
      pyGet stub "HotelId" = .ok (some hid) ∧ truthy hid = true ∧
      api.get_reservation_details rid = .ok rdStr ∧
      pyGet (clean_webhook_payload rdStr) "GuestId" = .ok guest_id ∧
      hotelLookup db.hotels hid = .ok hotel ∧
      pyGet (clean_webhook_payload rdStr) "Status" = .ok st ∧
      pyGet (clean_webhook_payload rdStr) "CheckInDate" = .ok civ ∧
      strptimeYmd civ = .ok ci ∧
      pyGet (clean_webhook_payload rdStr) "CheckOutDate" = .ok cov ∧
      strptimeYmd cov = .ok co ∧
      fetchGuestPayload api guest_id = .ok gdStr ∧
      pyGet (clean_webhook_payload gdStr) "Phone" = .ok (some p) ∧
      truthy p = true ∧
      pyGet (clean_webhook_payload gdStr) "Name" = .ok nm ∧
      db' = commitWrites db rid hotel
        ⟨guest_id, some (.str ci), some (.str co), st⟩ p nm) := by
  unfold processStub at h
  simp only [ebind_eq_ok] at h
  obtain ⟨ridOpt, hr, h⟩ := h
  obtain ⟨hidOpt, hh, h⟩ := h
  cases hguard : (otruthy ridOpt && otruthy hidOpt) with
  | false =>
    rw [hguard, if_neg (by simp)] at h
    exact Or.inl ⟨ridOpt, hidOpt, hr, hh, hguard, (Except.ok.inj h).symm⟩
  | true =>
    rw [hguard, if_pos rfl] at h
    rw [Bool.and_eq_true] at hguard
    obtain ⟨hrt, hht⟩ := hguard
    cases ridOpt with
    | none => exact absurd hrt (by simp [otruthy])
    | some rid =>
    cases hidOpt with
    | none => exact absurd hht (by simp [otruthy])
    | some hid =>
    simp only [otruthy] at hrt hht
    simp only [ebind_eq_ok, emap_eq_ok, epure, Except.ok.injEq] at h
    obtain ⟨rdStr, h4, h⟩ := h
    obtain ⟨guest_id, h5, h⟩ := h
    obtain ⟨hotel, h6, h⟩ := h
    obtain ⟨st, h7, h⟩ := h
    obtain ⟨civ, h8, h⟩ := h
    obtain ⟨ci, h9, h⟩ := h
    obtain ⟨cov, h10, h⟩ := h
    obtain ⟨co, h11, h⟩ := h
    obtain ⟨gdStr, h12, h⟩ := h
    obtain ⟨phone_number, h13, h⟩ := h
    obtain ⟨p, hval, h⟩ := h
    obtain ⟨nm, h15, hdb⟩ := h
    obtain ⟨hpn, hpt⟩ := validate_phone_number_ok hval
    subst hpn
    exact Or.inr ⟨rid, hid, rdStr, guest_id, hotel, st, civ, cov, ci, co, gdStr,
      nm, p, hr, hrt, hh, hht, h4, h5, h6, h7, h8, h9, h10, h11, h12, h13, hpt,
      h15, hdb.symm⟩

/-- Replay of a successful (non-skipped) `processStub`: the control flow
depends on the store only through the hotel list, so the same writes apply
from any store with the same hotels. -/
theorem processStub_ok_run (api : Api) (stub : Json) (hl : List String)
    (rid hid : Json) (rdStr : String) (guest_id : Option Json) (hotel : String)
    (st civ cov : Option Json) (ci co : String) (gdStr : String)
    (nm : Option Json) (p : Json)
    (hr : pyGet stub "ReservationId" = .ok (some rid)) (hrt : truthy rid = true)
    (hh : pyGet stub "HotelId" = .ok (some hid)) (hht : truthy hid = true)
    (h4 : api.get_reservation_details rid = .ok rdStr)
    (h5 : pyGet (clean_webhook_payload rdStr) "GuestId" = .ok guest_id)
    (h6 : hotelLookup hl hid = .ok hotel)
    (h7 : pyGet (clean_webhook_payload rdStr) "Status" = .ok st)
    (h8 : pyGet (clean_webhook_payload rdStr) "CheckInDate" = .ok civ)
    (h9 : strptimeYmd civ = .ok ci)
    (h10 : pyGet (clean_webhook_payload rdStr) "CheckOutDate" = .ok cov)
    (h11 : strptimeYmd cov = .ok co)
    (h12 : fetchGuestPayload api guest_id = .ok gdStr)
    (h13 : pyGet (clean_webhook_payload gdStr) "Phone" = .ok (some p))
    (h14 : truthy p = true)
    (h15 : pyGet (clean_webhook_payload gdStr) "Name" = .ok nm) :
    ∀ dbX : DB, dbX.hotels = hl →
      processStub api dbX stub = .ok (commitWrites dbX rid hotel
        ⟨guest_id, some (.str ci), some (.str co), st⟩ p nm) := by
  intro dbX hx
  simp [processStub, hr, hh, otruthy, hrt, hht, h4, h5, hx, h6, h7, h8, h9, h10,
    h11, h12, h13, validate_phone_number, h14, h15, ebind_ok, ebind_err,
    emap_ok, emap_err]

/-! ## Idempotence lemmas for the writes -/

theorem stayMatches_applyStayDefaults (rid : Json) (hn : String)
    (d : StayDefaults) (r : StayRow) :
    stayMatches rid hn (applyStayDefaults d r) = stayMatches rid hn r := rfl

theorem stayMatches_setGuest (rid : Json) (hn : String) (p : Json) (r : StayRow) :
    stayMatches rid hn { r with guest := some p } = stayMatches rid hn r := rfl

theorem stayMatches_self (rid : Json) (hn : String) (a b c : Option Json)
    (d0 : Option Json) (g : Option Json) :
    stayMatches rid hn ⟨rid, hn, a, b, c, d0, g⟩ = true := by
  simp [stayMatches]

theorem guest_upsert_idem (gs : List GuestRow) (p : Json) (nm : Option Json) :
    update_or_create_guest (update_or_create_guest gs p nm) p nm =
      update_or_create_guest gs p nm := by
  induction gs with
  | nil => simp [update_or_create_guest]
  | cons g gs ih =>
    cases hm : (g.phone == p) with
    | true => simp [update_or_create_guest, hm]
    | false => simp [update_or_create_guest, hm, ih]

theorem upsert_stay_cons_pos {rid : Json} {hn : String} {d : StayDefaults}
    {r : StayRow} {rs : List StayRow} (hm : stayMatches rid hn r = true) :
    update_or_create_stay (r :: rs) rid hn d = applyStayDefaults d r :: rs := by
  simp [update_or_create_stay, hm]

theorem upsert_stay_cons_neg {rid : Json} {hn : String} {d : StayDefaults}
    {r : StayRow} {rs : List StayRow} (hm : stayMatches rid hn r = false) :
    update_or_create_stay (r :: rs) rid hn d =
      r :: update_or_create_stay rs rid hn d := by
  simp [update_or_create_stay, hm]

theorem setStayGuest_cons_pos {rid : Json} {hn : String} {p : Json}
    {r : StayRow} {rs : List StayRow} (hm : stayMatches rid hn r = true) :
    setStayGuest (r :: rs) rid hn p = { r with guest := some p } :: rs := by
  simp [setStayGuest, hm]

theorem setStayGuest_cons_neg {rid : Json} {hn : String} {p : Json}
    {r : StayRow} {rs : List StayRow} (hm : stayMatches rid hn r = false) :
    setStayGuest (r :: rs) rid hn p = r :: setStayGuest rs rid hn p := by
  simp [setStayGuest, hm]

theorem stays_commit_idem (ss : List StayRow) (rid : Json) (hn : String)
    (d : StayDefaults) (p : Json) :
    setStayGuest (update_or_create_stay
        (setStayGuest (update_or_create_stay ss rid hn d) rid hn p) rid hn d)
      rid hn p =
      setStayGuest (update_or_create_stay ss rid hn d) rid hn p := by
  induction ss with
  | nil =>
    simp only [update_or_create_stay]
    rw [setStayGuest_cons_pos (stayMatches_self _ _ _ _ _ _ _),
      upsert_stay_cons_pos
        (by rw [stayMatches_setGuest]; exact stayMatches_self _ _ _ _ _ _ _),
      setStayGuest_cons_pos
        (by rw [stayMatches_applyStayDefaults, stayMatches_setGuest]
            exact stayMatches_self _ _ _ _ _ _ _)]
    rfl
  | cons r rs ih =>
    cases hm : stayMatches rid hn r with
    | true =>
      have hm1 : stayMatches rid hn (applyStayDefaults d r) = true := by
        rw [stayMatches_applyStayDefaults, hm]
      have hm2 :
          stayMatches rid hn { applyStayDefaults d r with guest := some p } = true := by
        rw [stayMatches_setGuest, hm1]
      have hm3 : stayMatches rid hn
          (applyStayDefaults d { applyStayDefaults d r with guest := some p }) = true := by
        rw [stayMatches_applyStayDefaults, stayMatches_setGuest,
          stayMatches_applyStayDefaults, hm]
      rw [upsert_stay_cons_pos hm, setStayGuest_cons_pos hm1,
        upsert_stay_cons_pos hm2, setStayGuest_cons_pos hm3]
      rfl
    | false =>
      rw [upsert_stay_cons_neg hm, setStayGuest_cons_neg hm,
        upsert_stay_cons_neg hm, setStayGuest_cons_neg hm, ih]

theorem commitWrites_idem (db : DB) (rid : Json) (hn : String) (d : StayDefaults)
    (p : Json) (nm : Option Json) :
    commitWrites (commitWrites db rid hn d p nm) rid hn d p nm =
      commitWrites db rid hn d p nm := by
  simp [commitWrites, stays_commit_idem, guest_upsert_idem]

theorem commitWrites_hotels (db : DB) (rid : Json) (hn : String) (d : StayDefaults)
    (p : Json) (nm : Option Json) :
    (commitWrites db rid hn d p nm).hotels = db.hotels := rfl

/-- Shared contradiction: a successful validation inside either loop body is
impossible when every guest-details payload the API can return has a missing
or blank phone (the fallback `"{}"` payload has none either). -/
theorem no_truthy_phone {api : Api} {guest_id : Option Json} {gdStr : String}
    {p : Json}
    (hapi : ∀ g s, api.get_guest_details g = .ok s →
      phoneMissing (clean_webhook_payload s))
    (h6 : fetchGuestPayload api guest_id = .ok gdStr)
    (h10 : pyGet (clean_webhook_payload gdStr) "Phone" = .ok (some p))
    (h11 : truthy p = true) : False := by
  rcases fetchGuestPayload_ok_cases h6 with ⟨g, _, _, hg3⟩ | hdef
  · have hf := hapi g gdStr hg3 p h10
    rw [hf] at h11
    exact Bool.noConfusion h11
  · subst hdef
    rw [show clean_webhook_payload "\x7b\x7d" = Json.obj [] from rfl] at h10
    simp [pyGet, dictGet] at h10

/-- Events before a failing one keep their committed writes; the failing one
and everything after it leave no trace, and the loop's result is `False`. -/
theorem processEvents_prefix_abort (api : Api) (hotel : String) :
    ∀ (es1 : List Json) (db db1 : DB) (e : Json) (es2 : List Json),
      processEvents api hotel db es1 = (db1, true) →
      (∀ db2, processEvent api hotel db1 e ≠ .ok db2) →
      processEvents api hotel db (es1 ++ e :: es2) = (db1, false) := by
  intro es1
  induction es1 with
  | nil =>
    intro db db1 e es2 h1 h2
    have hdb : db = db1 := congrArg Prod.fst h1
    subst hdb
    rw [List.nil_append, processEvents_cons]
    cases hp : processEvent api hotel db e with
    | ok d => exact absurd hp (h2 d)
    | error err => rfl
  | cons e1 es1 ih =>
    intro db db1 e es2 h1 h2
    rw [processEvents_cons] at h1
    rw [List.cons_append, processEvents_cons]
    cases hp : processEvent api hotel db e1 with
    | ok d =>
      rw [hp] at h1
      exact ih d db1 e es2 h1 h2
    | error err =>
      rw [hp] at h1
      exact absurd (congrArg Prod.snd h1) (by simp)

/-! ## Claim theorems -/

/-- **C6.** For every input string, `clean_webhook_payload` never lets an
exception propagate (in the embedding it is a total function: the source
catches both the `ValueError` it raises on an empty payload and the
`json.loads` decode error), and for an empty or non-JSON input — for example
the string `"not-json"` — it returns the empty mapping `{}`. -/
theorem C6_clean_webhook_payload_fails_closed :
    (∀ s : String, s = "" ∨ (json_loads s).isOk = false →
      clean_webhook_payload s = Json.obj []) ∧
    clean_webhook_payload "not-json" = Json.obj [] := by
  constructor
  · intro s h
    by_cases hs : s = ""
    · simp [clean_webhook_payload, hs]
    · rcases h with h | h
      · exact absurd h hs
      · unfold clean_webhook_payload
        rw [if_neg hs]
        cases hj : json_loads s with
        | ok v => rw [hj] at h; simp [Except.isOk, Except.toBool] at h
        | error e => rfl
  · decide

/-- Witness for C6, instantiated at the empty string and at `"not-json"`. -/
theorem C6_witness :
    ((("" : String) = "" ∨ (json_loads "").isOk = false) ∧
      clean_webhook_payload "" = Json.obj []) ∧
    ((("not-json" : String) = "" ∨ (json_loads "not-json").isOk = false) ∧
      clean_webhook_payload "not-json" = Json.obj []) :=
  ⟨⟨Or.inl rfl, C6_clean_webhook_payload_fails_closed.1 "" (Or.inl rfl)⟩,
   ⟨Or.inr (by decide),
    C6_clean_webhook_payload_fails_closed.1 "not-json" (Or.inr (by decide))⟩⟩

/-- **C2.** (spec-modelled: the mapping is not in `src/hotel/pms_systems.py`.)
The country→language mapping resolves `"de"` to German, an unknown code
`"xx"` to `"Unknown"`, and an absent code to `"No country code"`; the match
is a case-insensitive substring match (`"DE"` and `"de-AT"` also resolve to
German), and an unmapped or absent code yields a sentinel value, never a
failure (the function is total by construction). -/
theorem C2_country_to_language_mapping :
    get_language_from_country (some "de") = "German" ∧
    get_language_from_country (some "xx") = "Unknown" ∧
    get_language_from_country none = "No country code" ∧
    get_language_from_country (some "DE") = "German" ∧
    get_language_from_country (some "de-AT") = "German" := by decide

/-- **C10.** When the JSON parse of a non-empty payload succeeds with a
non-dict value, `clean_webhook_payload` returns that value unchanged
(whatever its type), and `update_tomorrows_stays` iterates the cleaned
response of `get_reservations_between_dates` directly as the list of
reservation stubs. -/
theorem C10_clean_payload_passthrough :
    (∀ (s : String) (v : Json), s ≠ "" → json_loads s = .ok v →
      clean_webhook_payload s = v) ∧
    (∀ (api : Api) (db : DB) (s : String) (stubs : List Json),
      api.get_reservations_between_dates = .ok s →
      json_loads s = .ok (.arr stubs) →
      update_tomorrows_stays api db = processStubs api db stubs) := by
  have hclean : ∀ (s : String) (v : Json), s ≠ "" → json_loads s = .ok v →
      clean_webhook_payload s = v := by
    intro s v hs hj
    unfold clean_webhook_payload
    rw [if_neg hs, hj]
  refine ⟨hclean, ?_⟩
  intro api db s stubs hapi hj
  have hs : s ≠ "" := by
    intro he; rw [he, json_loads_empty] at hj; exact Except.noConfusion hj
  simp only [update_tomorrows_stays, hapi, hclean s _ hs hj]
  rfl

/-- Witness for C10: a payload parsing to a JSON list (a non-dict value)
passes through `clean_webhook_payload` unchanged, and the nightly job
iterates it. -/
theorem C10_witness :
    ((("[7]" : String) ≠ "" ∧ json_loads "[7]" = .ok (.arr [.num 7])) ∧
      clean_webhook_payload "[7]" = Json.arr [.num 7]) ∧
    (w10Api.get_reservations_between_dates = .ok "[]" ∧
      json_loads "[]" = .ok (.arr []) ∧
      update_tomorrows_stays w10Api exDb = processStubs w10Api exDb []) :=
  ⟨⟨⟨by decide, by decide⟩,
    C10_clean_payload_passthrough.1 "[7]" _ (by decide) (by decide)⟩,
   ⟨rfl, by decide,
    C10_clean_payload_passthrough.2 w10Api exDb "[]" [] rfl (by decide)⟩⟩

/-- **C9.** Under the documented API contract (spec §6:
`get_reservation_details` returns a JSON-encodable dict, so a successful
response parses to a dict): when the fetched reservation details parse
successfully to a dict without a `"BreakfastIncluded"` key,
`stay_has_breakfast` returns the value `False` (not `None`); and it returns
`None` only when the fetch itself raises. -/
theorem C9_stay_has_breakfast_default_false (api : Api) (stay : StayRow)
    (hc : ∀ s, api.get_reservation_details stay.pms_reservation_id = .ok s →
      ∃ fs, json_loads s = Except.ok (Json.obj fs)) :
    (∀ s fs, api.get_reservation_details stay.pms_reservation_id = .ok s →
      json_loads s = .ok (.obj fs) → dictGet fs "BreakfastIncluded" = none →
      stay_has_breakfast api stay = some (.bool false)) ∧
    (stay_has_breakfast api stay = none →
      ∃ e, api.get_reservation_details stay.pms_reservation_id = .error e) := by
  cases hr : api.get_reservation_details stay.pms_reservation_id with
  | error e =>
    refine ⟨?_, fun _ => ⟨e, rfl⟩⟩
    intro s fs hok
    exact absurd hok (by simp)
  | ok s =>
    obtain ⟨fs, hfs⟩ := hc s hr
    have hsne : s ≠ "" := by
      intro he; rw [he, json_loads_empty] at hfs; exact Except.noConfusion hfs
    have hclean : clean_webhook_payload s = .obj fs := by
      unfold clean_webhook_payload
      rw [if_neg hsne, hfs]
    constructor
    · intro s' fs' hok hj hnone
      have hs' : s = s' := Except.ok.inj hok
      subst hs'
      have hfs' : fs = fs' := by
        rw [hj] at hfs
        exact (Json.obj.inj (Except.ok.inj hfs)).symm
      subst hfs'
      simp only [stay_has_breakfast, hr, hclean, hnone, Option.getD_none]
    · intro hnone
      rw [stay_has_breakfast, hr] at hnone
      simp only [hclean] at hnone
      exact absurd hnone (by simp)

/-- Witness for C9 at a concrete API returning the empty dict. -/
theorem C9_witness :
    (∀ s, (Api.mk (fun _ => .ok "\x7b\x7d") (fun _ => .error .apiError)
        (.error .apiError)).get_reservation_details
          (StayRow.mk (.str "r1") "h1" none none none none none).pms_reservation_id = .ok s →
      ∃ fs, json_loads s = Except.ok (Json.obj fs)) ∧
    stay_has_breakfast
      (Api.mk (fun _ => .ok "\x7b\x7d") (fun _ => .error .apiError) (.error .apiError))
      (StayRow.mk (.str "r1") "h1" none none none none none) = some (.bool false) := by
  have hc : ∀ s, (Api.mk (fun _ => .ok "\x7b\x7d") (fun _ => .error .apiError)
      (.error .apiError)).get_reservation_details
        (StayRow.mk (.str "r1") "h1" none none none none none).pms_reservation_id = .ok s →
      ∃ fs, json_loads s = Except.ok (Json.obj fs) := by
    intro s hs
    cases hs
    exact ⟨[], by decide⟩
  exact ⟨hc,
    (C9_stay_has_breakfast_default_false _ _ hc).1 "\x7b\x7d" [] rfl (by decide) rfl⟩

/-- **C7.** A reservation stub queried by the nightly sync job that lacks a
(truthy) `ReservationId` or `HotelId` is skipped — the store is unchanged and
no error is raised — and the remaining stubs are processed exactly as if the
incomplete stub were absent; hence such a stub does not by itself make the
job fail. -/
theorem C7_nightly_skips_incomplete_stubs (api : Api) (db : DB)
    (sf : List (String × Json)) (rest : List Json)
    (hmiss : otruthy (dictGet sf "ReservationId") = false ∨
      otruthy (dictGet sf "HotelId") = false) :
    processStub api db (.obj sf) = .ok db ∧
    processStubs api db (Json.obj sf :: rest) = processStubs api db rest := by
  have h1 : processStub api db (.obj sf) = .ok db := by
    unfold processStub
    rw [pyGet_obj, ebind_ok, pyGet_obj, ebind_ok]
    rcases hmiss with h | h <;> simp [h, epure]
  refine ⟨h1, ?_⟩
  rw [processStubs_cons, h1]

/-- Witness for C7: in the `exApi` window response the second stub has no
`ReservationId` and is skipped, and the job still succeeds overall. -/
theorem C7_witness :
    otruthy (dictGet [(("HotelId" : String), Json.str "h1")] "ReservationId") = false ∧
    processStub exApi exDb (.obj [("HotelId", .str "h1")]) = .ok exDb ∧
    processStubs exApi exDb
        (Json.obj [("HotelId", .str "h1")] :: [.obj [("ReservationId", .str "r1"), ("HotelId", .str "h1")]]) =
      processStubs exApi exDb [.obj [("ReservationId", .str "r1"), ("HotelId", .str "h1")]] ∧
    (update_tomorrows_stays exApi exDb).2 = true := by
  have h := C7_nightly_skips_incomplete_stubs exApi exDb [("HotelId", .str "h1")]
    [.obj [("ReservationId", .str "r1"), ("HotelId", .str "h1")]] (Or.inl (by decide))
  exact ⟨by decide, h.1, h.2, by decide⟩

/-- **C8.** An `APIError` raised by an external collaborator call is caught
and turned into the return value `False`: in `handle_webhook` when
`get_reservation_details` or `get_guest_details` raises while processing the
first event, and in `update_tomorrows_stays` when
`get_reservations_between_dates` raises; in each case the store is also left
unchanged. -/
theorem C8_api_errors_return_false :
    (∀ (api : Api) (wd : List (String × Json)) (db : DB) (hid : Json)
        (hotel : String) (event : Json) (es : List Json) (v : Json) (rid : Json),
      dictGet wd "HotelId" = some hid → truthy hid = true →
      hotelLookup db.hotels hid = .ok hotel →
      iterOpt (dictGet wd "Events") = .ok (event :: es) →
      pyIndex event "Value" = .ok v →
      pyGet v "ReservationId" = .ok (some rid) →
      truthy rid = true →
      api.get_reservation_details rid = .error .apiError →
      handle_webhook api wd db = (db, false)) ∧
    (∀ (api : Api) (wd : List (String × Json)) (db : DB) (hid : Json)
        (hotel : String) (event : Json) (es : List Json) (v : Json) (rid : Json)
        (s : String) (g : Json),
      dictGet wd "HotelId" = some hid → truthy hid = true →
      hotelLookup db.hotels hid = .ok hotel →
      iterOpt (dictGet wd "Events") = .ok (event :: es) →
      pyIndex event "Value" = .ok v →
      pyGet v "ReservationId" = .ok (some rid) →
      truthy rid = true →
      api.get_reservation_details rid = .ok s →
      pyGet (clean_webhook_payload s) "GuestId" = .ok (some g) →
      truthy g = true →
      api.get_guest_details g = .error .apiError →
      handle_webhook api wd db = (db, false)) ∧
    (∀ (api : Api) (db : DB),
      api.get_reservations_between_dates = .error .apiError →
      update_tomorrows_stays api db = (db, false)) := by
  refine ⟨?_, ?_, ?_⟩
  · intro api wd db hid hotel event es v rid h1 h2 h3 h4 h5 h6 h7 h8
    simp [handle_webhook, h1, h2, h3, h4, processEvents_cons,
      processEvent, h5, h6, requireTruthy, h7, h8, ebind_ok, ebind_err]
  · intro api wd db hid hotel event es v rid s g h1 h2 h3 h4 h5 h6 h7 h8 h9 h10 h11
    simp [handle_webhook, h1, h2, h3, h4, processEvents_cons,
      processEvent, h5, h6, requireTruthy, h7, h8, h9, fetchGuestPayload,
      h10, h11, ebind_ok, ebind_err]
  · intro api db h
    simp only [update_tomorrows_stays, h]

/-- Witness for C8: at `exApi`, reservation `"rX"` makes
`get_reservation_details` raise, reservation `"r4"` resolves to guest `"g9"`
whose `get_guest_details` raises, and an all-failing API makes the window
query raise; each run returns `False` with the store unchanged. -/
theorem C8_witness :
    (exApi.get_reservation_details (.str "rX") = .error .apiError ∧
      handle_webhook exApi (mkWd [mkEvent "rX"]) exDb = (exDb, false)) ∧
    (exApi.get_guest_details (.str "g9") = .error .apiError ∧
      handle_webhook exApi (mkWd [mkEvent "r4"]) exDb = (exDb, false)) ∧
    ((Api.mk (fun _ => .error .apiError) (fun _ => .error .apiError)
        (.error .apiError)).get_reservations_between_dates = .error .apiError ∧
      update_tomorrows_stays
        (Api.mk (fun _ => .error .apiError) (fun _ => .error .apiError)
          (.error .apiError)) exDb = (exDb, false)) := by
  refine ⟨⟨by decide, ?_⟩, ⟨by decide, ?_⟩, ⟨rfl, ?_⟩⟩
  · exact C8_api_errors_return_false.1 exApi (mkWd [mkEvent "rX"]) exDb
      (.str "h1") "h1" (mkEvent "rX") [] (.obj [("ReservationId", .str "rX")])
      (.str "rX") (by decide) (by decide) (by decide) (by decide) (by decide)
      (by decide) (by decide) (by decide)
  · exact C8_api_errors_return_false.2.1 exApi (mkWd [mkEvent "r4"]) exDb
      (.str "h1") "h1" (mkEvent "r4") [] (.obj [("ReservationId", .str "r4")])
      (.str "r4")
      "\x7b\"GuestId\":\"g9\",\"CheckInDate\":\"2024-05-01\",\"CheckOutDate\":\"2024-05-03\",\"Status\":\"Confirmed\"\x7d"
      (.str "g9") (by decide) (by decide) (by decide) (by decide) (by decide)
      (by decide) (by decide) (by decide) (by decide) (by decide) (by decide)
  · exact C8_api_errors_return_false.2.2 _ exDb rfl

/-- **C1.** For every reservation processed by `handle_webhook` or
`update_tomorrows_stays` whose guest details have a missing or blank phone
number, the reconciliation of that reservation fails (`validate_phone_number`
raises `ValueError`, or an earlier step already raised) and no `Stay` or
`Guest` write for that reservation is committed: the per-reservation atomic
block rolls back, so the loop's store is exactly what it was before that
reservation (a stub skipped for missing ids also leaves the store
unchanged). -/
theorem C1_missing_phone_atomic_abort :
    (∀ (api : Api) (hotel : String) (db : DB) (event : Json),
      (∀ g s, api.get_guest_details g = .ok s →
        phoneMissing (clean_webhook_payload s)) →
      ∀ db', processEvent api hotel db event ≠ .ok db') ∧
    (∀ (api : Api) (hotel : String) (db : DB) (event : Json) (es : List Json),
      (∀ db2, processEvent api hotel db event ≠ .ok db2) →
      processEvents api hotel db (event :: es) = (db, false)) ∧
    (∀ (api : Api) (db : DB) (stub : Json),
      (∀ g s, api.get_guest_details g = .ok s →
        phoneMissing (clean_webhook_payload s)) →
      ∀ db', processStub api db stub = .ok db' → db' = db) ∧
    (∀ (api : Api) (db : DB) (stub : Json) (rid hid : Json),
      (∀ g s, api.get_guest_details g = .ok s →
        phoneMissing (clean_webhook_payload s)) →
      pyGet stub "ReservationId" = .ok (some rid) → truthy rid = true →
      pyGet stub "HotelId" = .ok (some hid) → truthy hid = true →
      ∀ db', processStub api db stub ≠ .ok db') ∧
    (∀ (api : Api) (db : DB) (stub : Json) (ss : List Json),
      (∀ db2, processStub api db stub ≠ .ok db2) →
      processStubs api db (stub :: ss) = (db, false)) := by
  refine ⟨?_, ?_, ?_, ?_, ?_⟩
  · intro api hotel db event hapi db' h
    obtain ⟨v, rid, rdStr, guest_id, gdStr, ci, co, st, nm, p,
      _, _, _, _, _, h6, _, _, _, h10, h11, _, _⟩ := processEvent_ok_inv h
    exact no_truthy_phone hapi h6 h10 h11
  · intro api hotel db event es hfail
    rw [processEvents_cons]
    cases hp : processEvent api hotel db event with
    | ok d => exact absurd hp (hfail d)
    | error e => rfl
  · intro api db stub hapi db' h
    rcases processStub_ok_inv h with ⟨_, _, _, _, _, hdb⟩ |
      ⟨rid, hid, rdStr, guest_id, hotel, st, civ, cov, ci, co, gdStr, nm, p,
        _, _, _, _, _, _, _, _, _, _, _, _, h12, h13, h14, _, _⟩
    · exact hdb
    · exact (no_truthy_phone hapi h12 h13 h14).elim
  · intro api db stub rid hid hapi hr hrt hh hht db' h
    rcases processStub_ok_inv h with ⟨ridOpt, hidOpt, hr', hh', hguard, _⟩ |
      ⟨rid2, hid2, rdStr, guest_id, hotel, st, civ, cov, ci, co, gdStr, nm, p,
        _, _, _, _, _, _, _, _, _, _, _, _, h12, h13, h14, _, _⟩
    · rw [hr] at hr'
      obtain rfl := Except.ok.inj hr'
      rw [hh] at hh'
      obtain rfl := Except.ok.inj hh'
      simp [otruthy, hrt, hht] at hguard
    · exact (no_truthy_phone hapi h12 h13 h14).elim
  · intro api db stub ss hfail
    rw [processStubs_cons]
    cases hp : processStub api db stub with
    | ok d => exact absurd hp (hfail d)
    | error e => rfl

/-- Witness for C1: with an API whose every guest-details payload lacks a
phone, the fully well-formed reservation `r1` fails to reconcile through both
paths and the store is returned unchanged with result `False`. -/
theorem C1_witness :
    (∀ g s, exApiNoPhone.get_guest_details g = .ok s →
      phoneMissing (clean_webhook_payload s)) ∧
    (∀ db', processEvent exApiNoPhone "h1" exDb (mkEvent "r1") ≠ .ok db') ∧
    processEvents exApiNoPhone "h1" exDb [mkEvent "r1"] = (exDb, false) ∧
    (∀ db', processStub exApiNoPhone exDb exStub1 ≠ .ok db') ∧
    processStubs exApiNoPhone exDb [exStub1] = (exDb, false) := by
  have hapi : ∀ g s, exApiNoPhone.get_guest_details g = .ok s →
      phoneMissing (clean_webhook_payload s) := by
    intro g s hs
    cases hs
    intro p hp
    rw [show clean_webhook_payload exGuestNoPhonePayload =
        Json.obj [("Name", .str "Bo")] from by decide] at hp
    simp [pyGet, dictGet] at hp
  have hfailS : ∀ db', processStub exApiNoPhone exDb exStub1 ≠ .ok db' :=
    C1_missing_phone_atomic_abort.2.2.2.1 exApiNoPhone exDb exStub1
      (.str "r1") (.str "h1") hapi (by decide) (by decide) (by decide) (by decide)
  refine ⟨hapi,
    C1_missing_phone_atomic_abort.1 exApiNoPhone "h1" exDb (mkEvent "r1") hapi,
    C1_missing_phone_atomic_abort.2.1 exApiNoPhone "h1" exDb (mkEvent "r1") []
      (C1_missing_phone_atomic_abort.1 exApiNoPhone "h1" exDb (mkEvent "r1") hapi),
    hfailS,
    C1_missing_phone_atomic_abort.2.2.2.2 exApiNoPhone exDb exStub1 [] hfailS⟩

/-- **C3** counterexample: the claim is false on the code.  In the batch
`[r2, r1]` the first event fails validation (guest `g2` has no phone) and
`handle_webhook` returns `False` with the store untouched — the second event
`r1`, which on its own reconciles fine (producing `exDb1`), is never
processed: the `try/except` sits outside the event loop, so the whole batch
is aborted at the first failure. -/
theorem C3_counterexample :
    handle_webhook exApi (mkWd [mkEvent "r2", mkEvent "r1"]) exDb = (exDb, false) ∧
    handle_webhook exApi (mkWd [mkEvent "r1"]) exDb = (exDb1, true) ∧
    exDb1 ≠ exDb := ⟨by decide, by decide, by decide⟩

/-- **C3** amended: a validation failure in one event aborts that event (its
writes roll back) and also every later event in the batch — processing stops
at the first failure and the method returns `False` — while the events
processed before the failure keep their committed writes; and under a found
hotel and decodable event list, `handle_webhook` is exactly this event
loop. -/
theorem C3_amended_first_failure_aborts_batch :
    (∀ (api : Api) (hotel : String) (db db1 : DB) (es1 : List Json) (e : Json)
        (es2 : List Json),
      processEvents api hotel db es1 = (db1, true) →
      (∀ db2, processEvent api hotel db1 e ≠ .ok db2) →
      processEvents api hotel db (es1 ++ e :: es2) = (db1, false)) ∧
    (∀ (api : Api) (wd : List (String × Json)) (db : DB) (hid : Json)
        (hotel : String) (events : List Json),
      dictGet wd "HotelId" = some hid → truthy hid = true →
      hotelLookup db.hotels hid = .ok hotel →
      iterOpt (dictGet wd "Events") = .ok events →
      handle_webhook api wd db = processEvents api hotel db events) := by
  refine ⟨?_, ?_⟩
  · intro api hotel db db1 es1 e es2 h1 h2
    exact processEvents_prefix_abort api hotel es1 db db1 e es2 h1 h2
  · intro api wd db hid hotel events h1 h2 h3 h4
    simp [handle_webhook, h1, h2, h3, h4]

/-- Witness for C3's amended form: batch `[r1, r2, r3]` stops at `r2` with
only `r1`'s writes committed, and `handle_webhook` reduces to the loop. -/
theorem C3_witness :
    processEvents exApi "h1" exDb [mkEvent "r1"] = (exDb1, true) ∧
    (∀ db2, processEvent exApi "h1" exDb1 (mkEvent "r2") ≠ .ok db2) ∧
    processEvents exApi "h1" exDb
      ([mkEvent "r1"] ++ mkEvent "r2" :: [mkEvent "r3"]) = (exDb1, false) ∧
    handle_webhook exApi (mkWd [mkEvent "r1"]) exDb =
      processEvents exApi "h1" exDb [mkEvent "r1"] := by
  have hfail : ∀ db2, processEvent exApi "h1" exDb1 (mkEvent "r2") ≠ .ok db2 := by
    intro db2 hcon
    rw [show processEvent exApi "h1" exDb1 (mkEvent "r2") =
        .error .valueError from by decide] at hcon
    exact Except.noConfusion hcon
  refine ⟨by decide, hfail,
    C3_amended_first_failure_aborts_batch.1 exApi "h1" exDb exDb1 [mkEvent "r1"]
      (mkEvent "r2") [mkEvent "r3"] (by decide) hfail,
    C3_amended_first_failure_aborts_batch.2 exApi (mkWd [mkEvent "r1"]) exDb
      (.str "h1") "h1" [mkEvent "r1"] (by decide) (by decide) (by decide)
      (by decide)⟩

/-- **C4** counterexample: the claim is false on the code — no name
validation exists.  Reservation `r3`'s guest details carry a phone but no
`"Name"` key; `handle_webhook` succeeds (returns `True`) and commits a Guest
row whose `name` is `None`, so a committed Guest record can lack a name. -/
theorem C4_counterexample :
    handle_webhook exApi (mkWd [mkEvent "r3"]) exDb = (exDb3, true) ∧
    exDb3.guests = [{ phone := .str "+31612345678", name := none }] :=
  ⟨by decide, rfl⟩

/-- **C4** amended: the guest name is not validated during reconciliation:
with a valid phone, per-reservation processing succeeds whatever the name,
and the committed Guest's `name` is the raw `guest_details.get("Name")` —
`None` when the key is missing.  Shown from an arbitrary starting store at
the fixture whose guest details lack the `"Name"` key. -/
theorem C4_amended_name_not_validated :
    ∀ db : DB, processEvent exApi "h1" db (mkEvent "r3") =
      .ok (commitWrites db (.str "r3") "h1"
        ⟨some (.str "g3"), some (.str "2024-05-01"), some (.str "2024-05-03"),
          some (.str "Confirmed")⟩ (.str "+31612345678") none) :=
  processEvent_ok_run exApi "h1" (mkEvent "r3")
    (.obj [("ReservationId", .str "r3")]) (.str "r3")
    "\x7b\"GuestId\":\"g3\",\"CheckInDate\":\"2024-05-01\",\"CheckOutDate\":\"2024-05-03\",\"Status\":\"Confirmed\"\x7d"
    (some (.str "g3")) exGuestNoNamePayload
    (some (.str "2024-05-01")) (some (.str "2024-05-03"))
    (some (.str "Confirmed")) none (.str "+31612345678")
    (by decide) (by decide) (by decide) (by decide) (by decide) (by decide)
    (by decide) (by decide) (by decide) (by decide) (by decide) (by decide)

/-- **C5.** Upserting is idempotent: a `Stay` upsert leaves exactly one row
for its `(reservation id, hotel)` key (and never duplicates an existing
one), and re-processing the same reservation with identical details — the
same API responses — through either loop body is a no-op: the second pass
returns the same store unchanged. -/
theorem C5_upsert_idempotence :
    (∀ (stays : List StayRow) (rid : Json) (hn : String) (d : StayDefaults),
      countStays stays rid hn ≤ 1 →
      countStays (update_or_create_stay stays rid hn d) rid hn = 1) ∧
    (∀ (api : Api) (hotel : String) (db : DB) (event : Json) (db1 : DB),
      processEvent api hotel db event = .ok db1 →
      processEvent api hotel db1 event = .ok db1) ∧
    (∀ (api : Api) (db : DB) (stub : Json) (db1 : DB),
      processStub api db stub = .ok db1 →
      processStub api db1 stub = .ok db1) := by
  refine ⟨?_, ?_, ?_⟩
  · intro stays rid hn d
    induction stays with
    | nil =>
      intro _
      simp [update_or_create_stay, countStays, stayMatches_self]
    | cons r rs ih =>
      intro hle
      cases hm : stayMatches rid hn r with
      | true =>
        have hfc : List.filter (fun r2 => stayMatches rid hn r2) (r :: rs) =
            r :: List.filter (fun r2 => stayMatches rid hn r2) rs := by
          simp [List.filter_cons, hm]
        have h0 : (List.filter (fun r2 => stayMatches rid hn r2) rs).length = 0 := by
          unfold countStays at hle
          rw [hfc] at hle
          simp only [List.length_cons] at hle
          omega
        rw [upsert_stay_cons_pos hm]
        unfold countStays
        rw [show List.filter (fun r2 => stayMatches rid hn r2)
              (applyStayDefaults d r :: rs) =
            applyStayDefaults d r ::
              List.filter (fun r2 => stayMatches rid hn r2) rs from by
          simp [List.filter_cons, stayMatches_applyStayDefaults, hm]]
        simp [h0]
      | false =>
        have hle' : countStays rs rid hn ≤ 1 := by
          unfold countStays at hle ⊢
          rw [show List.filter (fun r2 => stayMatches rid hn r2) (r :: rs) =
              List.filter (fun r2 => stayMatches rid hn r2) rs from by
            simp [List.filter_cons, hm]] at hle
          exact hle
        rw [upsert_stay_cons_neg hm]
        unfold countStays
        rw [show List.filter (fun r2 => stayMatches rid hn r2)
              (r :: update_or_create_stay rs rid hn d) =
            List.filter (fun r2 => stayMatches rid hn r2)
              (update_or_create_stay rs rid hn d) from by
          simp [List.filter_cons, hm]]
        exact ih hle'
  · intro api hotel db event db1 h
    obtain ⟨v, rid, rdStr, guest_id, gdStr, ci, co, st, nm, p,
      h1, h2, h3, h4, h5, h6, h7, h8, h9, h10, h11, h12, hdb⟩ :=
      processEvent_ok_inv h
    subst hdb
    rw [processEvent_ok_run api hotel event v rid rdStr guest_id gdStr ci co st nm p
      h1 h2 h3 h4 h5 h6 h7 h8 h9 h10 h11 h12
      (commitWrites db rid hotel ⟨guest_id, ci, co, st⟩ p nm), commitWrites_idem]
  · intro api db stub db1 h
    rcases processStub_ok_inv h with ⟨ridOpt, hidOpt, hr, hh, hguard, hdb⟩ |
      ⟨rid, hid, rdStr, guest_id, hotel, st, civ, cov, ci, co, gdStr, nm, p,
        hr, hrt, hh, hht, h4, h5, h6, h7, h8, h9, h10, h11, h12, h13, h14, h15, hdb⟩
    · subst hdb
      exact h
    · subst hdb
      rw [processStub_ok_run api stub db.hotels rid hid rdStr guest_id hotel st civ
        cov ci co gdStr nm p hr hrt hh hht h4 h5 h6 h7 h8 h9 h10 h11 h12 h13 h14 h15
        (commitWrites db rid hotel ⟨guest_id, some (.str ci), some (.str co), st⟩ p nm)
        (commitWrites_hotels db rid hotel _ p nm), commitWrites_idem]

/-- Witness for C5: creating the `r1` stay in an empty table yields exactly
one matching row, and re-processing reservation `r1` through either loop
body from the store it produced leaves that store unchanged. -/
theorem C5_witness :
    (countStays [] (.str "r1") "h1" ≤ 1 ∧
      countStays (update_or_create_stay [] (.str "r1") "h1"
        ⟨some (.str "g1"), some (.str "2024-05-01"), some (.str "2024-05-03"),
          some (.str "Confirmed")⟩) (.str "r1") "h1" = 1) ∧
    (processEvent exApi "h1" exDb (mkEvent "r1") = .ok exDb1 ∧
      processEvent exApi "h1" exDb1 (mkEvent "r1") = .ok exDb1) ∧
    (processStub exApi exDb exStub1 = .ok exDb1 ∧
      processStub exApi exDb1 exStub1 = .ok exDb1) :=
  ⟨⟨by decide, C5_upsert_idempotence.1 [] (.str "r1") "h1" _ (by decide)⟩,
    ⟨by decide, C5_upsert_idempotence.2.1 exApi "h1" exDb (mkEvent "r1") exDb1
      (by decide)⟩,
    ⟨by decide, C5_upsert_idempotence.2.2 exApi exDb exStub1 exDb1 (by decide)⟩⟩

end PmsSystems
